import Mathlib

/-!
Verification of the twitch_api2 helix endpoint sample (games, check_user_subscription)
against its natural-language specification.

The two source files under scrutiny declare the concrete endpoint request and
response item types.  The generic framework (query encoder, envelope parser,
scope validator and paged dispatch loop) lives outside the provided sources,
so those operations are modelled from the specification, while every concrete
struct (field lists, declaration order, paths, scope constants and the
`set_pagination` body) is translated from the source files.
-/

/-! ## Basic wire-level types -/

/-- Opaque forward-pagination token (`helix::Cursor`); never inspected. -/
abbrev Cursor := String

/-- The type `types::CategoryId` is a string newtype on the wire. -/
abbrev CategoryId := String

/-- Base URL prefixed to every helix path (`TWITCH_HELIX_URL`). -/
def TWITCH_HELIX_URL : String := "https://api.twitch.tv/helix/"

/-! ## Query encoder

Modelled from the spec: the generic query serializer that `get_uri` runs over
a request value is not among the provided sources.  The spec states that
optional absent fields are skipped, present scalars render `key=value`
percent-encoded, repeated fields render one pair per element in order, and an
all-default request still ends in a bare `?`. -/

/-- One query-parameter slot of a request: an optional scalar or a repeated
scalar, matching the field shapes the sample endpoints use. -/
inductive QueryValue where
  | optional (v : Option String)
  | repeated (vs : List String)
deriving Repr, DecidableEq

/-- True on characters that query encoding leaves untouched. -/
def isUnreserved (c : Char) : Bool :=
  c.isAlphanum || c == '-' || c == '_' || c == '.' || c == '~'

/-- Hex digit for a value below 16. -/
def hexDigit (n : Nat) : Char :=
  if n < 10 then Char.ofNat (48 + n) else Char.ofNat (55 + (n % 16))

/-- Percent-encode a single character. -/
def percentEncodeChar (c : Char) : String :=
  if isUnreserved c then String.singleton c
  else
    let n := c.toNat % 256
    String.mk ['%', hexDigit (n / 16), hexDigit (n % 16)]

/-- Modelled from the spec: each value is independently percent-encoded. -/
def percentEncode (s : String) : String :=
  String.join (s.toList.map percentEncodeChar)

/-- Render one request field into its list of `key=value` pairs: absent
optionals and empty repeated fields render nothing; repeated fields render
one pair per element in sequence order. -/
def renderField : String × QueryValue → List String
  | (_, QueryValue.optional none) => []
  | (k, QueryValue.optional (some v)) => [k ++ "=" ++ percentEncode v]
  | (k, QueryValue.repeated vs) => vs.map (fun v => k ++ "=" ++ percentEncode v)

/-- All `key=value` pairs of a request, fields in declaration order. -/
def queryPairs (fields : List (String × QueryValue)) : List String :=
  (fields.map renderField).flatten

/-- Modelled from the spec: the encoded URI is the base URL, the fixed path,
a `?`, then the `&`-separated pairs (so an all-default request ends in a
bare `?`). -/
def encodeUri (path : String) (fields : List (String × QueryValue)) : String :=
  TWITCH_HELIX_URL ++ path ++ "?" ++ String.intercalate "&" (queryPairs fields)

/-- A field slot is at its builder default when it is an absent optional or
an empty repeated sequence. -/
def QueryValue.isDefault : QueryValue → Bool
  | QueryValue.optional none => true
  | QueryValue.optional (some _) => false
  | QueryValue.repeated vs => vs.isEmpty

/-! ## `GetGamesRequest` (src/src/helix/games.rs, lines 61-68) -/

/-- Query parameters for Get Games: `id` then `name`, both repeated, both
defaulting to the empty list. -/
structure GetGamesRequest where
  id : List CategoryId
  name : List String
deriving Repr, DecidableEq

/-- Builder output with both fields left at their defaults. -/
def GetGamesRequest.mkDefault : GetGamesRequest := ⟨[], []⟩

/-- Source: the PATH constant of Get Games is "games". -/
def GetGamesRequest.PATH : String := "games"

/-- Source: the SCOPE constant is the empty slice. -/
def GetGamesRequest.SCOPE : List String := []

/-- The query fields of a `GetGamesRequest` in declaration order. -/
def GetGamesRequest.queryFields (r : GetGamesRequest) : List (String × QueryValue) :=
  [("id", QueryValue.repeated r.id), ("name", QueryValue.repeated r.name)]

/-- The function `get_uri` for Get Games. -/
def GetGamesRequest.get_uri (r : GetGamesRequest) : String :=
  encodeUri GetGamesRequest.PATH r.queryFields

/-! ## `GetTopGamesRequest` (src/src/helix/games.rs, lines 171-182) -/

/-- Query parameters for Get Top Games: `after`, `before`, `first`, all
optional, all defaulting to absent. -/
structure GetTopGamesRequest where
  after : Option Cursor
  before : Option Cursor
  first : Option Nat
deriving Repr, DecidableEq

/-- Builder output with every field left at its default. -/
def GetTopGamesRequest.mkDefault : GetTopGamesRequest := ⟨none, none, none⟩

/-- Source: the PATH constant of Get Top Games is "games/top". -/
def GetTopGamesRequest.PATH : String := "games/top"

/-- Source: the SCOPE constant is the empty slice. -/
def GetTopGamesRequest.SCOPE : List String := []

/-- The query fields of a `GetTopGamesRequest` in declaration order. -/
def GetTopGamesRequest.queryFields (r : GetTopGamesRequest) : List (String × QueryValue) :=
  [("after", QueryValue.optional r.after),
   ("before", QueryValue.optional r.before),
   ("first", QueryValue.optional (r.first.map toString))]

/-- The function `get_uri` for Get Top Games. -/
def GetTopGamesRequest.get_uri (r : GetTopGamesRequest) : String :=
  encodeUri GetTopGamesRequest.PATH r.queryFields

/-- Source: the Paginated impl for GetTopGamesRequest assigns the cursor
argument to the after field, `self.after = cursor`. -/
def GetTopGamesRequest.set_pagination (r : GetTopGamesRequest) (cursor : Option Cursor) :
    GetTopGamesRequest :=
  { r with after := cursor }

/-! ## JSON values and response envelope parsing

Modelled from the spec: the envelope parser (`parse_response`) decodes a body
shaped `{"data": [...], "pagination": {"cursor": "..."}, "total": n}` into a
typed response, deserializing `data` item by item; a per-item failure is
fatal for the whole call. -/

/-- The JSON fragment the wire format uses. -/
inductive Json where
  | null
  | bool (b : Bool)
  | num (n : Int)
  | str (s : String)
  | arr (xs : List Json)
  | obj (fields : List (String × Json))

/-- First binding of a key in a JSON object, as serde sees it. -/
def lookupField (o : List (String × Json)) (k : String) : Option Json :=
  (o.find? (fun p => p.1 == k)).map (fun p => p.2)

/-- The decoded body of one HTTP response: typed `data`, the optional
pagination cursor, the optional total count. -/
structure HelixResponse (T : Type) where
  data : List T
  pagination : Option Cursor
  total : Option Int
deriving Repr, DecidableEq

/-- Deserialize the `data` array item by item; the first failing item makes
the whole decode fail, returning no items at all. -/
def decodeItems (dec : Json → Except String T) : List Json → Except String (List T)
  | [] => Except.ok []
  | x :: xs =>
    match dec x with
    | Except.error e => Except.error e
    | Except.ok v =>
      match decodeItems dec xs with
      | Except.error e => Except.error e
      | Except.ok vs => Except.ok (v :: vs)

/-- The optional `pagination.cursor` field of the envelope. -/
def envelopeCursor (fields : List (String × Json)) : Option Cursor :=
  match lookupField fields "pagination" with
  | some (Json.obj pf) =>
    match lookupField pf "cursor" with
    | some (Json.str c) => some c
    | _ => none
  | _ => none

/-- The optional `total` field of the envelope. -/
def envelopeTotal (fields : List (String × Json)) : Option Int :=
  match lookupField fields "total" with
  | some (Json.num n) => some n
  | _ => none

/-- Modelled from the spec: parse a response body into the envelope, or fail
with a parse error (all-or-nothing: a bad item fails the whole call). -/
def parse_response (dec : Json → Except String T) (body : Json) :
    Except String (HelixResponse T) :=
  match body with
  | Json.obj fields =>
    match lookupField fields "data" with
    | some (Json.arr items) =>
      match decodeItems dec items with
      | Except.error e => Except.error e
      | Except.ok data =>
        Except.ok ⟨data, envelopeCursor fields, envelopeTotal fields⟩
    | _ => Except.error "missing data array"
  | _ => Except.error "body is not an object"

/-! ## `types::TwitchCategory` (Game)

Modelled from the spec: the `Game` item type is declared outside the
provided sources; its wire shape (string fields `box_art_url`, `id`,
`name`) is taken from the documented response bodies in the sources. -/

/-- A game/category item as returned by the games endpoints. -/
structure TwitchCategory where
  box_art_url : String
  id : CategoryId
  name : String
deriving Repr, DecidableEq

/-- Required string field of a JSON object. -/
def getStr (o : List (String × Json)) (k : String) : Except String String :=
  match lookupField o k with
  | some (Json.str s) => Except.ok s
  | _ => Except.error ("missing field " ++ k)

/-- Required boolean field of a JSON object. -/
def getBool (o : List (String × Json)) (k : String) : Except String Bool :=
  match lookupField o k with
  | some (Json.bool b) => Except.ok b
  | _ => Except.error ("missing field " ++ k)

/-- Optional string field: absent and `null` both decode to `none`, the way
serde treats an `Option` field. -/
def getOptStr (o : List (String × Json)) (k : String) : Except String (Option String) :=
  match lookupField o k with
  | none => Except.ok none
  | some Json.null => Except.ok none
  | some (Json.str s) => Except.ok (some s)
  | some _ => Except.error ("invalid field " ++ k)

/-- Decode one `TwitchCategory` item. -/
def decodeGame (j : Json) : Except String TwitchCategory :=
  match j with
  | Json.obj o =>
    match getStr o "box_art_url", getStr o "id", getStr o "name" with
    | Except.ok b, Except.ok i, Except.ok n => Except.ok ⟨b, i, n⟩
    | Except.error e, _, _ => Except.error e
    | _, Except.error e, _ => Except.error e
    | _, _, Except.error e => Except.error e
  | _ => Except.error "item is not an object"

/-- Serialize a `TwitchCategory` back to its wire object, fields in
declaration order. -/
def serializeGame (g : TwitchCategory) : Json :=
  Json.obj [("box_art_url", Json.str g.box_art_url),
            ("id", Json.str g.id),
            ("name", Json.str g.name)]

/-! ## `UserSubscription` (src/src/helix/subscriptions/check_user_subscription.rs, lines 48-66) -/

/-- The type `types::SubscriptionTier` is a string on the wire (1000/2000/3000). -/
abbrev SubscriptionTier := String

/-- Return values for Check User Subscription, fields in declaration order:
`broadcaster_id`, `broadcaster_login`, `broadcaster_name`, `is_gift`,
`gifter_login` (optional), `gifter_name` (optional), `tier`. -/
structure UserSubscription where
  broadcaster_id : String
  broadcaster_login : String
  broadcaster_name : String
  is_gift : Bool
  gifter_login : Option String
  gifter_name : Option String
  tier : SubscriptionTier
deriving Repr, DecidableEq

/-- The field names declared on `UserSubscription`. -/
def userSubscriptionFields : List String :=
  ["broadcaster_id", "broadcaster_login", "broadcaster_name", "is_gift",
   "gifter_login", "gifter_name", "tier"]

/-- The fields of `UserSubscription` that are not `Option`-typed, hence
required by the serde derive. -/
def userSubscriptionRequired : List String :=
  ["broadcaster_id", "broadcaster_login", "broadcaster_name", "is_gift", "tier"]

/-- True when the object carries a key not declared on `UserSubscription`. -/
def hasUnknownField (o : List (String × Json)) : Bool :=
  o.any (fun p => !(userSubscriptionFields.contains p.1))

/-- Deserialize a `UserSubscription` per the serde derive on the struct:
required fields must be present with the right type; `Option` fields accept
absent or `null` as `none`; with `strict = true` (the `deny_unknown_fields`
feature) any undeclared key is rejected, otherwise unknown keys are ignored. -/
def decodeUserSubscriptionMode (strict : Bool) : Json → Except String UserSubscription
  | Json.obj o =>
    if strict && hasUnknownField o then Except.error "unknown field"
    else
      match getStr o "broadcaster_id" with
      | Except.error e => Except.error e
      | Except.ok bid =>
        match getStr o "broadcaster_login" with
        | Except.error e => Except.error e
        | Except.ok blogin =>
          match getStr o "broadcaster_name" with
          | Except.error e => Except.error e
          | Except.ok bname =>
            match getBool o "is_gift" with
            | Except.error e => Except.error e
            | Except.ok gift =>
              match getOptStr o "gifter_login" with
              | Except.error e => Except.error e
              | Except.ok glogin =>
                match getOptStr o "gifter_name" with
                | Except.error e => Except.error e
                | Except.ok gname =>
                  match getStr o "tier" with
                  | Except.error e => Except.error e
                  | Except.ok tier =>
                    Except.ok ⟨bid, blogin, bname, gift, glogin, gname, tier⟩
  | _ => Except.error "item is not an object"

/-- The default-configuration decoder (unknown fields ignored). -/
def decodeUserSubscription : Json → Except String UserSubscription :=
  decodeUserSubscriptionMode false

/-- JSON for an `Option` field as serde emits it: `none` becomes `null`. -/
def optStrJson : Option String → Json
  | none => Json.null
  | some s => Json.str s

/-- Serialize a `UserSubscription` to its wire object, fields in declaration
order, `Option` fields as `null` when absent. -/
def serializeUserSubscription (u : UserSubscription) : Json :=
  Json.obj [("broadcaster_id", Json.str u.broadcaster_id),
            ("broadcaster_login", Json.str u.broadcaster_login),
            ("broadcaster_name", Json.str u.broadcaster_name),
            ("is_gift", Json.bool u.is_gift),
            ("gifter_login", optStrJson u.gifter_login),
            ("gifter_name", optStrJson u.gifter_name),
            ("tier", Json.str u.tier)]

/-! ## Scope validator

Modelled from the spec: `check(required, granted)` is pure set difference,
`required - granted`; a non-empty difference is a scope error naming exactly
the missing scopes, an empty one is ok. -/

/-- Result of the scope check: ok, or the set of missing scopes. -/
inductive ScopeCheckResult where
  | ok
  | missing (scopes : List String)
deriving Repr, DecidableEq

/-- Modelled from the spec: compute `required - granted`; non-empty means
failure carrying exactly the missing scopes. -/
def check (required granted : List String) : ScopeCheckResult :=
  match required.filter (fun s => !(granted.contains s)) with
  | [] => ScopeCheckResult.ok
  | m => ScopeCheckResult.missing m

/-! ## Multi-page dispatch

Modelled from the spec: the "fetch all pages" loop dispatches, reads the
returned cursor, calls `set_pagination`, and stops when the returned cursor
is absent or when a page returns zero items.  The server side is abstracted
as the sequence of page responses (items plus returned cursor) the
successive fetches would observe; the loop consumes one entry per HTTP
fetch. -/

/-- One server page: its items and the cursor the envelope carries. -/
abbrev Page (T : Type) := List T × Option Cursor

/-- Drive the paged fetch over the successive server responses, returning
every item yielded (in order) and the number of HTTP fetches performed. -/
def dispatchAll : List (Page T) → List T × Nat
  | [] => ([], 0)
  | (items, cur) :: rest =>
    if cur.isNone || items.isEmpty then (items, 1)
    else
      let r := dispatchAll rest
      (items ++ r.1, r.2 + 1)

/-! ## Concrete test data (from the request tests in the sources) -/

/-- The item repeated twice in the Get Games test body. -/
def fortnite : TwitchCategory :=
  ⟨"https://static-cdn.jtvnw.net/ttv-boxart/Fortnite-52x72.jpg", "33214", "Fortnite"⟩

/-- The cursor carried by the Get Games test body. -/
def gamesTestCursor : Cursor := "eyJiIjpudWxsLCJhIjp7IkN"

/-- The Get Games test body: two items under data, a pagination cursor. -/
def gamesTestBody : Json :=
  Json.obj [("data", Json.arr [serializeGame fortnite, serializeGame fortnite]),
            ("pagination", Json.obj [("cursor", Json.str gamesTestCursor)])]

/-! ## Representations of an optional wire field -/

/-- How an optional field can appear in a JSON object: missing entirely,
bound to null, or bound to a string. -/
inductive OptFieldRepr where
  | absent
  | null
  | present (s : String)
deriving Repr, DecidableEq

/-- The object entries a given representation contributes. -/
def OptFieldRepr.entries (k : String) : OptFieldRepr → List (String × Json)
  | OptFieldRepr.absent => []
  | OptFieldRepr.null => [(k, Json.null)]
  | OptFieldRepr.present s => [(k, Json.str s)]

/-- The decoded value of a given representation. -/
def OptFieldRepr.value : OptFieldRepr → Option String
  | OptFieldRepr.absent => none
  | OptFieldRepr.null => none
  | OptFieldRepr.present s => some s

/-- A test object holding a full UserSubscription plus one extra field not
declared on the type. -/
def subWithExtra : List (String × Json) :=
  [("broadcaster_id", Json.str "141981764"),
   ("broadcaster_login", Json.str "twitchdev"),
   ("broadcaster_name", Json.str "TwitchDev"),
   ("is_gift", Json.bool false),
   ("tier", Json.str "1000"),
   ("extra_field", Json.str "surprise")]

/-! ## Theorems -/

/-- A field at its builder default contributes no query pairs. -/
theorem renderField_of_isDefault (p : String × QueryValue)
    (h : (p.2).isDefault = true) : renderField p = [] := by
  obtain ⟨k, v⟩ := p
  cases v with
  | optional o =>
    cases o with
    | none => rfl
    | some s => simp [QueryValue.isDefault] at h
  | repeated vs =>
    simp [QueryValue.isDefault, List.isEmpty_iff] at h
    subst h
    rfl

/-- A request whose fields are all at their defaults has no query pairs. -/
theorem queryPairs_of_all_default (fields : List (String × QueryValue))
    (h : ∀ p ∈ fields, (p.2).isDefault = true) : queryPairs fields = [] := by
  induction fields with
  | nil => rfl
  | cons p rest ih =>
    have hp := renderField_of_isDefault p (h p (List.mem_cons_self p rest))
    have hr := ih (fun q hq => h q (List.mem_cons_of_mem p hq))
    simp only [queryPairs, List.map_cons, List.flatten_cons] at hr ⊢
    rw [hp, hr]
    rfl

/-- C1: building GetGamesRequest with id equal to the single-element list
containing 493057 (name left at its default) makes get_uri produce exactly
the URI string for the games path with that single id pair, and
parse_response on the test body, whose data array holds two items and whose
pagination object holds a cursor, returns a 2-element typed result together
with that cursor. -/
theorem getGames_concrete_uri_and_parse :
    GetGamesRequest.get_uri ⟨["493057"], []⟩ =
      "https://api.twitch.tv/helix/games?id=493057" ∧
    parse_response decodeGame gamesTestBody =
      Except.ok ⟨[fortnite, fortnite], some gamesTestCursor, none⟩ := by
  constructor
  · decide
  · rfl

/-- C2: every request whose optional and repeated fields are all at their
defaults encodes to the fixed path followed by a bare trailing question mark
with no key-value pairs; in particular the all-default GetTopGamesRequest
encodes to exactly the games/top URI with a bare trailing question mark. -/
theorem default_request_encodes_bare_query (path : String)
    (fields : List (String × QueryValue))
    (h : ∀ p ∈ fields, (p.2).isDefault = true) :
    encodeUri path fields = TWITCH_HELIX_URL ++ path ++ "?" ∧
    GetTopGamesRequest.mkDefault.get_uri = "https://api.twitch.tv/helix/games/top?" := by
  refine ⟨?_, by decide⟩
  rw [encodeUri, queryPairs_of_all_default fields h]
  rw [show String.intercalate "&" [] = "" from rfl, String.append_empty]

/-- Witness for C2 at the all-default GetTopGamesRequest. -/
theorem default_request_encodes_bare_query_witness :
    (∀ p ∈ GetTopGamesRequest.mkDefault.queryFields, (p.2).isDefault = true) ∧
    encodeUri GetTopGamesRequest.PATH GetTopGamesRequest.mkDefault.queryFields =
      TWITCH_HELIX_URL ++ GetTopGamesRequest.PATH ++ "?" :=
  ⟨by decide,
   (default_request_encodes_bare_query GetTopGamesRequest.PATH
     GetTopGamesRequest.mkDefault.queryFields (by decide)).1⟩

/-- C3: a repeated field holding the two-element sequence a, b renders one
key=value pair per element in sequence order; an empty repeated field
renders nothing; and GetGamesRequest renders its fields in declaration
order, all id pairs before all name pairs. -/
theorem repeated_field_rendering (k : String) (r : GetGamesRequest) :
    renderField (k, QueryValue.repeated ["a", "b"]) = [k ++ "=a", k ++ "=b"] ∧
    renderField (k, QueryValue.repeated []) = [] ∧
    queryPairs r.queryFields =
      r.id.map (fun v => "id=" ++ percentEncode v) ++
        r.name.map (fun v => "name=" ++ percentEncode v) := by
  refine ⟨?_, rfl, ?_⟩
  · have ha : ("=" : String) ++ percentEncode "a" = "=a" := by decide
    have hb : ("=" : String) ++ percentEncode "b" = "=b" := by decide
    simp [renderField, String.append_assoc, ha, hb]
  · have hid : ∀ v : String, "id" ++ "=" ++ percentEncode v = "id=" ++ percentEncode v := by
      intro v
      rw [show ("id" ++ "=" : String) = "id=" from by decide]
    have hname : ∀ v : String, "name" ++ "=" ++ percentEncode v = "name=" ++ percentEncode v := by
      intro v
      rw [show ("name" ++ "=" : String) = "name=" from by decide]
    simp [queryPairs, GetGamesRequest.queryFields, renderField, hid, hname]

/-- C5: set_pagination stores the cursor argument verbatim into the after
field (none clears it) and leaves before and first unchanged. -/
theorem set_pagination_frame (r : GetTopGamesRequest) (c : Option Cursor) :
    (r.set_pagination c).after = c ∧
    (r.set_pagination c).before = r.before ∧
    (r.set_pagination c).first = r.first :=
  ⟨rfl, rfl, rfl⟩

/-- C4: the scope check returns ok exactly when every required scope is
granted; on failure it returns a non-empty list holding exactly the scopes
that are required but not granted; and the empty SCOPE constants declared by
GetGamesRequest and GetTopGamesRequest pass against every credential. -/
theorem scope_check_characterization (required granted : List String) :
    (check required granted = ScopeCheckResult.ok ↔ ∀ s ∈ required, s ∈ granted) ∧
    (∀ m, check required granted = ScopeCheckResult.missing m →
      m ≠ [] ∧ ∀ s, s ∈ m ↔ s ∈ required ∧ s ∉ granted) ∧
    check GetGamesRequest.SCOPE granted = ScopeCheckResult.ok ∧
    check GetTopGamesRequest.SCOPE granted = ScopeCheckResult.ok := by
  refine ⟨?_, ?_, rfl, rfl⟩
  · unfold check
    cases hf : required.filter (fun s => !(granted.contains s)) with
    | nil =>
      simp only [List.filter_eq_nil_iff] at hf
      simpa using fun s hs => by simpa using hf s hs
    | cons a t =>
      constructor
      · intro hok
        exact absurd hok (by simp)
      · intro hsub
        have : required.filter (fun s => !(granted.contains s)) = [] := by
          rw [List.filter_eq_nil_iff]
          intro s hs
          simpa using hsub s hs
        rw [this] at hf
        cases hf
  · intro m hm
    unfold check at hm
    cases hf : required.filter (fun s => !(granted.contains s)) with
    | nil =>
      rw [hf] at hm
      cases hm
    | cons a t =>
      rw [hf] at hm
      cases hm
      constructor
      · simp
      · intro s
        rw [← hf]
        simp [List.mem_filter]

/-- C9: serializing a response item to its wire object and deserializing it
back yields the same value, for every UserSubscription and every
TwitchCategory. -/
theorem roundtrip_serialize_deserialize (u : UserSubscription) (g : TwitchCategory) :
    decodeUserSubscription (serializeUserSubscription u) = Except.ok u ∧
    decodeGame (serializeGame g) = Except.ok g := by
  constructor
  · obtain ⟨bid, bl, bn, gift, gl, gn, tier⟩ := u
    cases gl <;> cases gn <;> rfl
  · obtain ⟨b, i, n⟩ := g
    rfl

/-- C10: deserializing a UserSubscription enforces no gift consistency:
whatever the value of is_gift, the decode succeeds with each gifter field
independently absent, null or present, and the decoded gifter values are
none for absent or null and the given string for present. -/
theorem userSubscription_gift_fields_independent (bid bl bn tier : String)
    (b : Bool) (rl rn : OptFieldRepr) :
    decodeUserSubscription (Json.obj
      ([("broadcaster_id", Json.str bid), ("broadcaster_login", Json.str bl),
        ("broadcaster_name", Json.str bn), ("is_gift", Json.bool b)]
        ++ OptFieldRepr.entries "gifter_login" rl
        ++ OptFieldRepr.entries "gifter_name" rn
        ++ [("tier", Json.str tier)])) =
      Except.ok ⟨bid, bl, bn, b, rl.value, rn.value, tier⟩ := by
  cases rl <;> cases rn <;> rfl

/-- C6: over a sequence of server pages in which exactly the last page
carries an absent cursor and no page before it is empty, the paged fetch
yields exactly the concatenation of all pages' items in page order and
performs exactly one HTTP fetch per page, with no extra fetch after the
last page. -/
theorem dispatchAll_concat_pages {T : Type} (init : List (List T × Cursor))
    (lastItems : List T) (h : ∀ p ∈ init, p.1 ≠ []) :
    dispatchAll (init.map (fun p => (p.1, some p.2)) ++ [(lastItems, none)]) =
      ((init.map (fun p => p.1)).flatten ++ lastItems, init.length + 1) := by
  induction init with
  | nil => simp [dispatchAll]
  | cons p rest ih =>
    have hp : p.1.isEmpty = false := by
      have := h p (List.mem_cons_self p rest)
      simpa [List.isEmpty_iff] using this
    have hr := ih (fun q hq => h q (List.mem_cons_of_mem p hq))
    simp only [List.map_cons, List.cons_append, dispatchAll, Option.isNone_some,
      Bool.false_or, hp, if_neg Bool.false_ne_true, List.append_eq, hr,
      List.flatten_cons, List.length_cons, List.append_assoc]

/-- Witness for C6: two non-empty cursored pages followed by a cursorless
page yield the five items in order in exactly three fetches. -/
theorem dispatchAll_concat_pages_witness :
    (∀ p ∈ [([1, 2], "c1"), ([3], "c2")], p.1 ≠ ([] : List Nat)) ∧
    dispatchAll ([([1, 2], "c1"), ([3], "c2")].map (fun p => (p.1, some p.2)) ++
        [([4, 5], none)]) =
      ([1, 2, 3, 4, 5], 3) :=
  ⟨by decide, dispatchAll_concat_pages [([1, 2], "c1"), ([3], "c2")] [4, 5] (by decide)⟩

/-- A successful required-string read means the key is bound to a string. -/
theorem getStr_ok_lookup (o : List (String × Json)) (k s : String)
    (h : getStr o k = Except.ok s) : lookupField o k = some (Json.str s) := by
  unfold getStr at h
  split at h
  · rename_i heq
    cases h
    exact heq
  · cases h

/-- A successful required-boolean read means the key is bound to a boolean. -/
theorem getBool_ok_lookup (o : List (String × Json)) (k : String) (b : Bool)
    (h : getBool o k = Except.ok b) : lookupField o k = some (Json.bool b) := by
  unfold getBool at h
  split at h
  · rename_i heq
    cases h
    exact heq
  · cases h

/-- A UserSubscription decode can only succeed when every required field is
present on the object. -/
theorem decodeUserSubscription_ok_required (strict : Bool)
    (o : List (String × Json)) (u : UserSubscription)
    (h : decodeUserSubscriptionMode strict (Json.obj o) = Except.ok u) :
    ∀ k ∈ userSubscriptionRequired, lookupField o k ≠ none := by
  simp only [decodeUserSubscriptionMode] at h
  by_cases hs : (strict && hasUnknownField o) = true
  case pos =>
    rw [if_pos hs] at h
    cases h
  case neg =>
    rw [if_neg hs] at h
    split at h
    case h_1 => cases h
    case h_2 bid hbid =>
      split at h
      case h_1 => cases h
      case h_2 blogin hblogin =>
        split at h
        case h_1 => cases h
        case h_2 bname hbname =>
          split at h
          case h_1 => cases h
          case h_2 gift hgift =>
            split at h
            case h_1 => cases h
            case h_2 glogin hglogin =>
              split at h
              case h_1 => cases h
              case h_2 gname hgname =>
                split at h
                case h_1 => cases h
                case h_2 tier htier =>
                  intro k hk
                  simp only [userSubscriptionRequired, List.mem_cons,
                    List.not_mem_nil, or_false] at hk
                  rcases hk with rfl | rfl | rfl | rfl | rfl
                  · rw [getStr_ok_lookup o _ _ hbid]
                    exact Option.noConfusion
                  · rw [getStr_ok_lookup o _ _ hblogin]
                    exact Option.noConfusion
                  · rw [getStr_ok_lookup o _ _ hbname]
                    exact Option.noConfusion
                  · rw [getBool_ok_lookup o _ _ hgift]
                    exact Option.noConfusion
                  · rw [getStr_ok_lookup o _ _ htier]
                    exact Option.noConfusion

/-- If any member of the data array fails to decode, the item-by-item
decode of the whole array fails. -/
theorem decodeItems_error_of_mem {T : Type} (dec : Json → Except String T)
    (items : List Json) (j : Json) (hmem : j ∈ items) (e : String)
    (hj : dec j = Except.error e) :
    ∃ e2, decodeItems dec items = Except.error e2 := by
  induction items with
  | nil => cases hmem
  | cons x xs ih =>
    rcases List.mem_cons.mp hmem with rfl | hmem2
    · exact ⟨e, by simp [decodeItems, hj]⟩
    · cases hx : dec x with
      | error e3 => exact ⟨e3, by simp [decodeItems, hx]⟩
      | ok v =>
        obtain ⟨e2, h2⟩ := ih hmem2
        exact ⟨e2, by simp [decodeItems, hx, h2]⟩

/-- C7: parsing a response body in which some item of the data array is an
object missing a required field of UserSubscription returns a parse error
for the whole call, never a partially populated item list. -/
theorem parse_error_on_missing_required_field (envFields : List (String × Json))
    (items : List Json) (o : List (String × Json)) (k : String)
    (hdata : lookupField envFields "data" = some (Json.arr items))
    (hmem : Json.obj o ∈ items)
    (hk : k ∈ userSubscriptionRequired)
    (hmiss : lookupField o k = none) :
    ∃ e, parse_response decodeUserSubscription (Json.obj envFields) = Except.error e := by
  have hdec : ∃ e, decodeUserSubscription (Json.obj o) = Except.error e := by
    cases hd : decodeUserSubscription (Json.obj o) with
    | ok u =>
      exact absurd hmiss (decodeUserSubscription_ok_required false o u hd k hk)
    | error e => exact ⟨e, rfl⟩
  obtain ⟨e, he⟩ := hdec
  obtain ⟨e2, h2⟩ := decodeItems_error_of_mem decodeUserSubscription items _ hmem e he
  exact ⟨e2, by simp [parse_response, hdata, h2]⟩

/-- Witness for C7: a body whose single data item lacks the tier field
fails to parse. -/
theorem parse_error_on_missing_required_field_witness :
    ∃ e, parse_response decodeUserSubscription
      (Json.obj [("data", Json.arr [Json.obj [("broadcaster_id", Json.str "1")]])]) =
      Except.error e :=
  parse_error_on_missing_required_field _ _ _ "tier" rfl
    (List.mem_singleton.mpr rfl) (by simp [userSubscriptionRequired]) rfl

/-- Key lookup on a cons object steps through the head binding. -/
theorem lookupField_cons (p : String × Json) (rest : List (String × Json))
    (k : String) :
    lookupField (p :: rest) k =
      if p.1 == k then some p.2 else lookupField rest k := by
  unfold lookupField
  rw [List.find?_cons]
  by_cases hp : (p.1 == k) = true
  · simp [hp]
  · simp [hp]

/-- Dropping the bindings whose keys are not declared on UserSubscription
does not change the lookup of any declared key. -/
theorem lookupField_filter_known (o : List (String × Json)) (k : String)
    (hk : userSubscriptionFields.contains k = true) :
    lookupField (o.filter (fun p => userSubscriptionFields.contains p.1)) k =
      lookupField o k := by
  induction o with
  | nil => rfl
  | cons p rest ih =>
    by_cases hp : userSubscriptionFields.contains p.1 = true
    · rw [List.filter_cons_of_pos (by simpa using hp), lookupField_cons,
        lookupField_cons, ih]
    · rw [List.filter_cons_of_neg (by simpa using hp), ih, lookupField_cons]
      have hne : (p.1 == k) = false := by
        apply beq_eq_false_iff_ne.mpr
        intro hpe
        apply hp
        rw [hpe]
        exact hk
      rw [hne]
      simp

/-- Required string reads agree on objects with equal lookups. -/
theorem getStr_congr (o1 o2 : List (String × Json)) (k : String)
    (h : lookupField o1 k = lookupField o2 k) : getStr o1 k = getStr o2 k := by
  unfold getStr
  rw [h]

/-- Required boolean reads agree on objects with equal lookups. -/
theorem getBool_congr (o1 o2 : List (String × Json)) (k : String)
    (h : lookupField o1 k = lookupField o2 k) : getBool o1 k = getBool o2 k := by
  unfold getBool
  rw [h]

/-- Optional string reads agree on objects with equal lookups. -/
theorem getOptStr_congr (o1 o2 : List (String × Json)) (k : String)
    (h : lookupField o1 k = lookupField o2 k) : getOptStr o1 k = getOptStr o2 k := by
  unfold getOptStr
  rw [h]

/-- In the default configuration the decode result depends only on the
declared fields: undeclared bindings can be dropped without change. -/
theorem decodeUserSubscription_ignores_unknown (o : List (String × Json)) :
    decodeUserSubscriptionMode false
      (Json.obj (o.filter (fun p => userSubscriptionFields.contains p.1))) =
      decodeUserSubscriptionMode false (Json.obj o) := by
  simp only [decodeUserSubscriptionMode]
  rw [getStr_congr _ o "broadcaster_id" (lookupField_filter_known o _ (by decide)),
    getStr_congr _ o "broadcaster_login" (lookupField_filter_known o _ (by decide)),
    getStr_congr _ o "broadcaster_name" (lookupField_filter_known o _ (by decide)),
    getBool_congr _ o "is_gift" (lookupField_filter_known o _ (by decide)),
    getOptStr_congr _ o "gifter_login" (lookupField_filter_known o _ (by decide)),
    getOptStr_congr _ o "gifter_name" (lookupField_filter_known o _ (by decide)),
    getStr_congr _ o "tier" (lookupField_filter_known o _ (by decide))]
  simp [Bool.false_and]

/-- C8: an object carrying a field beyond those declared on UserSubscription
is rejected in strict mode (the deny_unknown_fields feature), while in the
default configuration the unknown field is ignored: the decode result is
exactly that of the object restricted to the declared fields. -/
theorem unknown_field_strict_vs_default (o : List (String × Json)) (k : String)
    (v : Json) (hmem : (k, v) ∈ o)
    (hk : userSubscriptionFields.contains k = false) :
    decodeUserSubscriptionMode true (Json.obj o) = Except.error "unknown field" ∧
    decodeUserSubscriptionMode false (Json.obj o) =
      decodeUserSubscriptionMode false
        (Json.obj (o.filter (fun p => userSubscriptionFields.contains p.1))) := by
  constructor
  · have hu : hasUnknownField o = true := by
      unfold hasUnknownField
      rw [List.any_eq_true]
      refine ⟨(k, v), hmem, ?_⟩
      show (!(userSubscriptionFields.contains k)) = true
      rw [hk]
      rfl
    simp [decodeUserSubscriptionMode, hu]
  · exact (decodeUserSubscription_ignores_unknown o).symm

/-- Witness for C8: a full subscription object with one extra unknown field
decodes successfully in the default mode and is rejected in strict mode. -/
theorem unknown_field_strict_vs_default_witness :
    ("extra_field", Json.str "surprise") ∈ subWithExtra ∧
    userSubscriptionFields.contains "extra_field" = false ∧
    decodeUserSubscriptionMode false (Json.obj subWithExtra) =
      Except.ok ⟨"141981764", "twitchdev", "TwitchDev", false, none, none, "1000"⟩ ∧
    decodeUserSubscriptionMode true (Json.obj subWithExtra) =
      Except.error "unknown field" :=
  ⟨List.mem_cons_of_mem _ (List.mem_cons_of_mem _ (List.mem_cons_of_mem _
      (List.mem_cons_of_mem _ (List.mem_cons_of_mem _ (List.mem_cons_self _ _))))),
   by decide, rfl,
   (unknown_field_strict_vs_default subWithExtra "extra_field" (Json.str "surprise")
      (List.mem_cons_of_mem _ (List.mem_cons_of_mem _ (List.mem_cons_of_mem _
        (List.mem_cons_of_mem _ (List.mem_cons_of_mem _ (List.mem_cons_self _ _))))))
      (by decide)).1⟩

/-- Witness for C4 at concrete scope sets: one required scope not granted
is reported as exactly the missing set, and the empty SCOPE of the two
sample requests passes. -/
theorem scope_check_characterization_witness :
    check ["user:read:email"] ["bits:read"] = ScopeCheckResult.missing ["user:read:email"] ∧
    (check ["user:read:email"] ["bits:read"] = ScopeCheckResult.ok ↔
      ∀ s ∈ ["user:read:email"], s ∈ ["bits:read"]) ∧
    check GetGamesRequest.SCOPE ["bits:read"] = ScopeCheckResult.ok :=
  ⟨by decide,
   (scope_check_characterization ["user:read:email"] ["bits:read"]).1,
   (scope_check_characterization ["user:read:email"] ["bits:read"]).2.2.1⟩
